import Mathlib

/-!
Verification development for the Tempo Expectation and Residual Analysis
Engine of the halftime_game repository.  The statistical core is
src/app/plots/tempo.py; the consumer of the period-2 classification is
HalftimeGame._calculate_correctness in src/app/game_pygame.py.  Python
floats are modelled as rationals wherever the source performs only field
operations, and as reals where square roots and the normal CDF appear.
-/

namespace Halftime

/-- Standard normal cumulative distribution function, modelling
scipy.stats.norm.cdf: the integral of the standard gaussian density over
the interval left of the argument. -/
noncomputable def normCdf (z : ℝ) : ℝ :=
  ∫ x in Set.Iic z, ProbabilityTheory.gaussianPDFReal 0 1 x

/-- Embedding of the STD_DEVS table of tempo.py as a partial lookup:
for periods 1 and 2 the four possession-start types have entries
rebound 8.5, turnover 8.5, oppo_made_shot 10.0, oppo_made_ft 9.0;
every other key is absent. -/
def STD_DEVS (period : ℤ) (t : String) : Option ℚ :=
  if period = 1 ∨ period = 2 then
    if t = "rebound" then some (17/2)
    else if t = "turnover" then some (17/2)
    else if t = "oppo_made_shot" then some 10
    else if t = "oppo_made_ft" then some 9
    else none
  else none

/-- Python str.lower, applied characterwise. -/
def pyLower (s : String) : String := String.mk (s.data.map Char.toLower)

/-- Embedding of get_std_dev of tempo.py: periods other than 1 use the
period-2 table, falsy possession types default to the rebound key, unknown
keys fall back to the rebound entry of the same period (final default 8.5). -/
def get_std_dev (period : ℤ) (poss_start_type : Option String) : ℚ :=
  let period_key : ℤ := if period = 1 then 1 else 2
  let poss_type : String :=
    match poss_start_type with
    | some s => if s = "" then "rebound" else pyLower s
    | none => "rebound"
  (STD_DEVS period_key poss_type).getD ((STD_DEVS period_key "rebound").getD (17/2))

/-- Embedding of calculate_p_value of tempo.py: the directional one-sided
z-test with the guard returning 0.5 for n = 0 or zero standard deviation,
and the two branches on the sign of the mean residual. -/
noncomputable def calculate_p_value (mean_residual : ℝ) (n : ℕ) (std_dev : ℝ) : ℝ :=
  if n = 0 ∨ std_dev = 0 then 1/2
  else
    let se := std_dev / Real.sqrt n
    let z := mean_residual / se
    if 0 < mean_residual then 1 - (1 - normCdf z)
    else normCdf z

/-- Arithmetic mean of a list of rationals (np.mean on NaN-free input). -/
def npMean (rs : List ℚ) : ℚ := rs.sum / rs.length

/-- Insertion of an element into a sorted list of rationals. -/
def insertSorted (a : ℚ) : List ℚ → List ℚ
  | [] => [a]
  | b :: bs => if a ≤ b then a :: b :: bs else b :: insertSorted a bs

/-- Insertion sort of a list of rationals. -/
def sortQ (rs : List ℚ) : List ℚ := rs.foldr insertSorted []

/-- Median of a list of rationals (np.median on NaN-free input): middle
element of the sorted list for odd length, average of the two middle
elements for even length.  Callers guard the empty case. -/
def npMedian (rs : List ℚ) : ℚ :=
  let s := sortQ rs
  let n := s.length
  if n % 2 = 1 then s.getD (n / 2) 0
  else (s.getD (n / 2 - 1) 0 + s.getD (n / 2) 0) / 2

/-- Embedding of calculate_combined_p_value of tempo.py: a left fold over
the per-type strata accumulating (total_residual, total_n,
combined_variance), skipping strata with an empty residual list, followed by
the guard total_n = 0 and the call of calculate_p_value on the pooled
triple. -/
noncomputable def calculate_combined_p_value
    (residuals_by_type : List (String × List ℚ)) (period : ℤ) : ℝ :=
  let acc : ℚ × ℕ × ℚ := residuals_by_type.foldl
    (fun acc s =>
      if s.2 = [] then acc
      else
        (acc.1 + npMean s.2 * s.2.length,
         acc.2.1 + s.2.length,
         acc.2.2 + get_std_dev period (some s.1) ^ 2 * s.2.length))
    (0, 0, 0)
  if acc.2.1 = 0 then 1/2
  else
    calculate_p_value ((acc.1 / (acc.2.1 : ℚ) : ℚ) : ℝ) acc.2.1
      (Real.sqrt ((acc.2.2 / (acc.2.1 : ℚ) : ℚ) : ℝ))

/-- Row of the TFS dataframe handed to build_tempo_figure.  Optional fields
model NaN entries of the corresponding columns. -/
structure Poss where
  chrono_index : ℚ
  action_time : ℚ
  poss_start_type : Option String
  period_number : Option ℤ
  away_score : Option ℚ
  home_score : Option ℚ
deriving DecidableEq

/-- Modelled from the spec: the Expected Tempo Model calculate_expected_tfs
(app/data/bigquery_loader.py is not part of src/).  Spec section 4.1 fixes
only its signature, market total then possession type then period then
score differential, and requires determinism, so the pipeline is
parameterized over any such function. -/
abbrev ExpModel : Type := ℚ → Option String → Option ℤ → Option ℚ → ℚ

/-- Period buckets of the residual loop. -/
inductive PB
  | p1
  | p2
deriving DecidableEq

/-- Period bucketing of the residual loop of build_tempo_figure: rows with
period 1 go to the first bucket, rows with a truthy period_number at least 2
go to the second, all other rows (missing, zero or negative period) go to
neither bucket. -/
def periodBucket (p : Poss) : Option PB :=
  match p.period_number with
  | none => none
  | some k => if k = 1 then some PB.p1 else if k ≠ 0 ∧ 2 ≤ k then some PB.p2 else none

/-- Possession type as normalized in the residual loop: str(val).lower()
when the cell is present, None when it is NaN. -/
def possTypeOf (p : Poss) : Option String := p.poss_start_type.map pyLower

/-- Keys of the residuals_by_type dictionaries, in insertion order. -/
def bucketKeys : List String := ["rebound", "turnover", "oppo_made_shot", "oppo_made_ft", "other"]

/-- Type bucket of the residual loop: a normalized type that is one of the
dictionary keys keeps its name, anything else (including a missing type)
falls into the catch-all bucket. -/
def typeBucket (p : Poss) : String :=
  match possTypeOf p with
  | some s => if bucketKeys.contains s then s else "other"
  | none => "other"

/-- Per-possession residual: observed action_time minus the Expected Tempo
Model output at the possession type, the possession period and the supplied
score differential. -/
def residualOf (model : ExpModel) (closing_total : ℚ) (score_diff : Option ℚ)
    (p : Poss) : ℚ :=
  p.action_time - model closing_total (possTypeOf p) p.period_number score_diff

/-- All residuals of the full game record, in row order. -/
def resAll (model : ExpModel) (ct : ℚ) (sd : Option ℚ) (g : List Poss) : List ℚ :=
  g.map (residualOf model ct sd)

/-- Residuals of the rows of one period bucket, in row order. -/
def resP (model : ExpModel) (ct : ℚ) (sd : Option ℚ) (g : List Poss) (b : PB) : List ℚ :=
  (g.filter fun p => periodBucket p = some b).map (residualOf model ct sd)

/-- Residuals of one (period bucket, type bucket) stratum, in row order. -/
def resByType (model : ExpModel) (ct : ℚ) (sd : Option ℚ) (g : List Poss)
    (b : PB) (t : String) : List ℚ :=
  (g.filter fun p => periodBucket p = some b ∧ typeBucket p = t).map (residualOf model ct sd)

/-- Share of strictly positive residuals, as the percentage
count_above / total * 100 computed in the source, 0 for an empty list. -/
def pctPos (rs : List ℚ) : ℚ :=
  if rs.length = 0 then 0 else ((rs.countP fun r => 0 < r : ℕ) : ℚ) / rs.length * 100

/-- The residual_data dictionary produced by build_tempo_figure, with one
field per key.  The by-type dictionaries are association lists in the key
insertion order of the source. -/
structure ResidualData where
  avg_residual : ℚ
  median_residual : ℚ
  pct_above : ℚ
  total_poss : ℕ
  p_value : ℝ
  avg_residual_p1 : ℚ
  median_residual_p1 : ℚ
  pct_above_p1 : ℚ
  total_poss_p1 : ℕ
  p_value_p1 : ℝ
  avg_residual_p2 : ℚ
  median_residual_p2 : ℚ
  pct_above_p2 : ℚ
  total_poss_p2 : ℕ
  p_value_p2 : ℝ
  avg_by_type : List (String × ℚ)
  median_by_type : List (String × ℚ)
  pct_above_by_type : List (String × ℚ)
  count_by_type : List (String × ℕ)
  p_value_by_type : List (String × ℝ)
  avg_by_type_p1 : List (String × ℚ)
  median_by_type_p1 : List (String × ℚ)
  pct_above_by_type_p1 : List (String × ℚ)
  count_by_type_p1 : List (String × ℕ)
  p_value_by_type_p1 : List (String × ℝ)
  avg_by_type_p2 : List (String × ℚ)
  median_by_type_p2 : List (String × ℚ)
  pct_above_by_type_p2 : List (String × ℚ)
  count_by_type_p2 : List (String × ℕ)
  p_value_by_type_p2 : List (String × ℝ)

/-- Embedding of the residual-statistics block of build_tempo_figure: the
per-possession residual loop with its period and type bucketing, the
overall, period-1 and period-2 aggregates, the by-type aggregates keyed by
the nonempty strata, and all p-values.  The score differential argument is
the one build_tempo_figure computes before the loop. -/
noncomputable def computeResidualData (model : ExpModel) (ct : ℚ)
    (full : List Poss) (score_diff : Option ℚ) : ResidualData :=
  let residuals := resAll model ct score_diff full
  let rp1 := resP model ct score_diff full PB.p1
  let rp2 := resP model ct score_diff full PB.p2
  let byT1 := fun t => resByType model ct score_diff full PB.p1 t
  let byT2 := fun t => resByType model ct score_diff full PB.p2 t
  let byT := fun t => byT1 t ++ byT2 t
  { avg_residual := if residuals = [] then 0 else npMean residuals
    median_residual := if residuals = [] then 0 else npMedian residuals
    pct_above := pctPos residuals
    total_poss := residuals.length
    p_value := if residuals = [] then 1/2 else
      calculate_combined_p_value (bucketKeys.map fun t => (t, byT t)) 1
    avg_residual_p1 := if rp1 = [] then 0 else npMean rp1
    median_residual_p1 := if rp1 = [] then 0 else npMedian rp1
    pct_above_p1 := pctPos rp1
    total_poss_p1 := rp1.length
    p_value_p1 := if rp1 = [] then 1/2 else
      calculate_combined_p_value (bucketKeys.map fun t => (t, byT1 t)) 1
    avg_residual_p2 := if rp2 = [] then 0 else npMean rp2
    median_residual_p2 := if rp2 = [] then 0 else npMedian rp2
    pct_above_p2 := pctPos rp2
    total_poss_p2 := rp2.length
    p_value_p2 := if rp2 = [] then 1/2 else
      calculate_combined_p_value (bucketKeys.map fun t => (t, byT2 t)) 2
    avg_by_type := bucketKeys.filterMap fun t =>
      if byT t = [] then none else some (t, npMean (byT t))
    median_by_type := bucketKeys.filterMap fun t =>
      if byT t = [] then none else some (t, npMedian (byT t))
    pct_above_by_type := bucketKeys.filterMap fun t =>
      if byT t = [] then none else some (t, pctPos (byT t))
    count_by_type := bucketKeys.filterMap fun t =>
      if byT t = [] then none else some (t, (byT t).length)
    p_value_by_type := bucketKeys.filterMap fun t =>
      if byT t = [] then none else
        some (t, calculate_p_value ((npMean (byT t) : ℚ) : ℝ) (byT t).length
          ((get_std_dev 1 (some t) : ℚ) : ℝ))
    avg_by_type_p1 := bucketKeys.filterMap fun t =>
      if byT1 t = [] then none else some (t, npMean (byT1 t))
    median_by_type_p1 := bucketKeys.filterMap fun t =>
      if byT1 t = [] then none else some (t, npMedian (byT1 t))
    pct_above_by_type_p1 := bucketKeys.filterMap fun t =>
      if byT1 t = [] then none else some (t, pctPos (byT1 t))
    count_by_type_p1 := bucketKeys.filterMap fun t =>
      if byT1 t = [] then none else some (t, (byT1 t).length)
    p_value_by_type_p1 := bucketKeys.filterMap fun t =>
      if byT1 t = [] then none else
        some (t, calculate_p_value ((npMean (byT1 t) : ℚ) : ℝ) (byT1 t).length
          ((get_std_dev 1 (some t) : ℚ) : ℝ))
    avg_by_type_p2 := bucketKeys.filterMap fun t =>
      if byT2 t = [] then none else some (t, npMean (byT2 t))
    median_by_type_p2 := bucketKeys.filterMap fun t =>
      if byT2 t = [] then none else some (t, npMedian (byT2 t))
    pct_above_by_type_p2 := bucketKeys.filterMap fun t =>
      if byT2 t = [] then none else some (t, pctPos (byT2 t))
    count_by_type_p2 := bucketKeys.filterMap fun t =>
      if byT2 t = [] then none else some (t, (byT2 t).length)
    p_value_by_type_p2 := bucketKeys.filterMap fun t =>
      if byT2 t = [] then none else
        some (t, calculate_p_value ((npMean (byT2 t) : ℚ) : ℝ) (byT2 t).length
          ((get_std_dev 2 (some t) : ℚ) : ℝ)) }

/-- Maximum of a list of rationals (the pandas max over the non-null
cells), None for an empty list. -/
def maxQ : List ℚ → Option ℚ
  | [] => none
  | a :: as => some (as.foldl (fun x y => if x ≤ y then y else x) a)

/-- Absolute value on the rationals, written with an explicit sign test. -/
def pyAbs (q : ℚ) : ℚ := if q < 0 then -q else q

/-- Score differential computed by build_tempo_figure before the residual
loop: taken from Period 1 rows only, as the absolute difference of the
maximum away score and the maximum home score of that period (NaN cells are
skipped by the pandas max), None when either column has no value there. -/
def scoreDiffP1 (full : List Poss) : Option ℚ :=
  let period_1_data := full.filter fun p => p.period_number = some 1
  if period_1_data = [] then none
  else
    match maxQ (period_1_data.filterMap Poss.away_score),
        maxQ (period_1_data.filterMap Poss.home_score) with
    | some ma, some mh => some (pyAbs (ma - mh))
    | _, _ => none

/-- Residual-data gate of build_tempo_figure: the pipeline runs exactly when
a closing total is supplied and the frame is nonempty, and it receives the
Period-1 score differential. -/
noncomputable def buildResidualData (model : ExpModel) (closing_total : Option ℚ)
    (full : List Poss) : Option ResidualData :=
  match closing_total with
  | some ct =>
    if full = [] then none
    else some (computeResidualData model ct full (scoreDiffP1 full))
  | none => none

/-- Standard gaussian density kernel. -/
noncomputable def gaussK (u : ℝ) : ℝ :=
  (Real.sqrt (2 * Real.pi))⁻¹ * Real.exp (-(u ^ 2) / 2)

/-- Uniform grid of n points from a to b (np.linspace). -/
noncomputable def linspace (a b : ℝ) (n : ℕ) : List ℝ :=
  (List.range n).map fun i => a + (b - a) * i / (n - 1)

/-- Modelled from the spec: gaussian_kernel_smoother (app/util/kernel.py is
not part of src/); spec section 4.2 prescribes Nadaraya-Watson weighted
local averaging with a standard gaussian kernel over the evaluation grid. -/
noncomputable def gaussian_kernel_smoother (xs ys : List ℝ) (bandwidth : ℝ)
    (grid : List ℝ) : List (ℝ × ℝ) :=
  grid.map fun g =>
    let ws := xs.map fun xi => gaussK ((g - xi) / bandwidth)
    (g, ((ws.zip ys).map fun w => w.1 * w.2).sum / ws.sum)

/-- Layers of the Period-1 tempo plot that the analysis call returns: the
raw scatter series and the smoothed trend curve. -/
structure TempoFigure where
  rawX : List ℚ
  rawY : List ℚ
  smoothed : List (ℝ × ℝ)

/-- Figure construction of build_tempo_figure for the Period-1 display rows:
raw x and y series and the kernel-smoothed curve on the 200-point grid. -/
noncomputable def figureOf (display : List Poss) : TempoFigure :=
  let x : List ℝ := display.map fun p => ((p.chrono_index : ℚ) : ℝ)
  let y : List ℝ := display.map fun p => ((p.action_time : ℚ) : ℝ)
  let grid := linspace ((x.min?).getD 0) ((x.max?).getD 0) 200
  { rawX := display.map Poss.chrono_index
    rawY := display.map Poss.action_time
    smoothed := gaussian_kernel_smoother x y 5 grid }

/-- Message of the ValueError raised by build_tempo_figure when the frame
has no Period 1 rows. -/
def noP1Msg (game_id : String) : String :=
  "No Period 1 data found for game " ++ game_id ++ ". Cannot generate plot."

/-- Embedding of the analysis surface of build_tempo_figure: filter the
frame to Period 1 for display, raise (error) when no Period 1 rows exist,
otherwise return the figure together with the optional residual data
computed from the full frame. -/
noncomputable def build_tempo_figure (model : ExpModel) (tfs_df : List Poss)
    (game_id : String) (closing_total : Option ℚ) :
    Except String (TempoFigure × Option ResidualData) :=
  let full_tfs_df := tfs_df
  let display_tfs_df := full_tfs_df.filter fun p => p.period_number = some 1
  if display_tfs_df = [] then Except.error (noP1Msg game_id)
  else Except.ok (figureOf display_tfs_df, buildResidualData model closing_total full_tfs_df)

/-- Embedding of HalftimeGame._calculate_correctness (game_pygame.py): the
actual result is slow when p_value_p2 exceeds 0.5 and fast otherwise, and
the prediction is correct when it names that result. -/
noncomputable def calculate_correctness (user_prediction : String)
    (rd : ResidualData) : Bool × String :=
  let actual_result := if 1/2 < rd.p_value_p2 then "slow" else "fast"
  (user_prediction = actual_result, actual_result)

/-- Spec-side pooling of claim C5, written from the spec words: over the
strata with at least one observation, total_n is the sum of the sizes,
pooled_mean the size-weighted mean sum over total_n, pooled_std the square
root of the size-weighted variance sum over total_n, the triple fed into
the single-stratum significance test; 0.5 when every stratum is empty. -/
noncomputable def specCombinedPValue (residuals_by_type : List (String × List ℚ))
    (period : ℤ) : ℝ :=
  let strata := residuals_by_type.filter fun s => ¬ s.2 = []
  let total_n : ℕ := (strata.map fun s => s.2.length).sum
  if total_n = 0 then 1/2
  else
    calculate_p_value
      ((((strata.map fun s => npMean s.2 * s.2.length).sum / (total_n : ℚ)) : ℚ) : ℝ)
      total_n
      (Real.sqrt ((((strata.map fun s =>
        get_std_dev period (some s.1) ^ 2 * s.2.length).sum / (total_n : ℚ)) : ℚ) : ℝ))

/-- Total number of observations of a list of strata. -/
def groupN (g : List (String × List ℚ)) : ℕ := (g.map fun s => s.2.length).sum

/-- Total residual sum of a list of strata. -/
def groupSumRes (g : List (String × List ℚ)) : ℚ := (g.map fun s => s.2.sum).sum

/-- Size-weighted variance sum of a list of strata, each stratum assigned
its table standard deviation. -/
def groupVarSum (g : List (String × List ℚ)) (period : ℤ) : ℚ :=
  (g.map fun s => get_std_dev period (some s.1) ^ 2 * s.2.length).sum

/-- Pooled (mean, n, std) summary of one group of strata, per the pooling
formulas of calculate_combined_p_value. -/
noncomputable def groupSummary (g : List (String × List ℚ)) (period : ℤ) : ℝ × ℕ × ℝ :=
  (((groupSumRes g : ℚ) : ℝ) / (groupN g : ℝ), groupN g,
    Real.sqrt (((groupVarSum g period : ℚ) : ℝ) / (groupN g : ℝ)))

/-- Second-level pooling of already-pooled (mean, n, std) summaries by the
same inverse-variance-weighted formulas. -/
noncomputable def poolSummaries (ts : List (ℝ × ℕ × ℝ)) : ℝ × ℕ × ℝ :=
  let tn : ℕ := (ts.map fun t => t.2.1).sum
  ((ts.map fun t => t.1 * (t.2.1 : ℝ)).sum / (tn : ℝ), tn,
    Real.sqrt ((ts.map fun t => t.2.2 ^ 2 * (t.2.1 : ℝ)).sum / (tn : ℝ)))

/-- Spec-side score differential of claim C2: the maximum absolute score
differential observed within the rows of the given period, None when no row
of the period carries both scores. -/
def specPeriodScoreDiff (full : List Poss) (k : ℤ) : Option ℚ :=
  maxQ ((full.filter fun p => p.period_number = some k).filterMap fun p =>
    match p.away_score, p.home_score with
    | some a, some h => some (pyAbs (a - h))
    | _, _ => none)

/-- Constant Expected Tempo Model instance: expected TFS 10 seconds for
every possession, as in the concrete scenario of spec section 8. -/
def constModel : ExpModel := fun _ _ _ _ => 10

/-- Score-differential-sensitive Expected Tempo Model instance: the
expected TFS equals the supplied score differential (0 when absent). -/
def diffModel : ExpModel := fun _ _ _ sd => sd.getD 0

/-- Concrete game of spec section 8: two Period-1 possessions (12s rebound,
9s turnover) and two Period-2 possessions (14s rebound, 6s turnover), no
scores. -/
def scenarioGame : List Poss :=
  [⟨1, 12, some "rebound", some 1, none, none⟩,
   ⟨2, 9, some "turnover", some 1, none, none⟩,
   ⟨3, 14, some "rebound", some 2, none, none⟩,
   ⟨4, 6, some "turnover", some 2, none, none⟩]

/-- Game whose Period-1 and Period-2 score differentials differ: Period 1
is tied 0-0, Period 2 reaches 20-0. -/
def gameC2 : List Poss :=
  [⟨1, 10, some "rebound", some 1, some 0, some 0⟩,
   ⟨2, 10, some "rebound", some 2, some 20, some 0⟩]

/-- Game for the removal experiment: the second row is the only Period-1
turnover and carries the maximum Period-1 score. -/
def gameC9 : List Poss :=
  [⟨1, 10, some "rebound", some 1, some 0, some 0⟩,
   ⟨2, 10, some "turnover", some 1, some 20, some 0⟩,
   ⟨3, 10, some "rebound", some 2, none, none⟩]

/-- The game gameC9 with its only Period-1 turnover removed. -/
def gameC9R : List Poss :=
  [⟨1, 10, some "rebound", some 1, some 0, some 0⟩,
   ⟨3, 10, some "rebound", some 2, none, none⟩]

/-- Minimal valid game: one Period-1 rebound possession. -/
def gameP1 : List Poss := [⟨1, 10, some "rebound", some 1, none, none⟩]

/-- Removal experiment of the spec: drop from the game every possession
that falls in the period-2 bucket with the given type bucket. -/
def removeP2Type (g : List Poss) (t : String) : List Poss :=
  g.filter fun p => ¬ (periodBucket p = some PB.p2 ∧ typeBucket p = t)

/-- Residual data the pipeline produces on the scenario game with market
total 145 under the constant model. -/
noncomputable def scenarioRD : ResidualData :=
  computeResidualData constModel 145 scenarioGame (scoreDiffP1 scenarioGame)

/-- The standard gaussian density is an even function. -/
theorem gaussian_even (x : ℝ) :
    ProbabilityTheory.gaussianPDFReal 0 1 (-x) = ProbabilityTheory.gaussianPDFReal 0 1 x := by
  simp [ProbabilityTheory.gaussianPDFReal, neg_sq]

/-- The normal CDF is nonnegative. -/
theorem normCdf_nonneg (z : ℝ) : 0 ≤ normCdf z :=
  MeasureTheory.setIntegral_nonneg measurableSet_Iic
    fun x _ => ProbabilityTheory.gaussianPDFReal_nonneg 0 1 x

/-- The normal CDF is at most one. -/
theorem normCdf_le_one (z : ℝ) : normCdf z ≤ 1 := by
  have h := MeasureTheory.setIntegral_le_integral (s := Set.Iic z)
    (ProbabilityTheory.integrable_gaussianPDFReal 0 1)
    (MeasureTheory.ae_of_all _ (ProbabilityTheory.gaussianPDFReal_nonneg 0 1))
  rw [ProbabilityTheory.integral_gaussianPDFReal_eq_one 0 one_ne_zero] at h
  exact h

/-- The normal CDF takes the value one half at zero. -/
theorem normCdf_zero : normCdf 0 = 1/2 := by
  have hint := ProbabilityTheory.integrable_gaussianPDFReal 0 1
  have h1 := integral_comp_neg_Iic (0:ℝ)
    (ProbabilityTheory.gaussianPDFReal 0 1)
  simp only [gaussian_even, neg_zero] at h1
  have h2 := intervalIntegral.integral_Iic_add_Ioi (b := (0:ℝ))
    hint.integrableOn hint.integrableOn
  rw [ProbabilityTheory.integral_gaussianPDFReal_eq_one 0 one_ne_zero] at h2
  unfold normCdf
  linarith

/-- C6: for every sample size at least 1 and nonzero standard deviation the
two sign branches of calculate_p_value compute the same value, so the
function equals the single closed form, the normal CDF of the z-score
mean over (std over sqrt n). -/
theorem c6_branches_collapse (mean_residual : ℝ) (n : ℕ) (std_dev : ℝ)
    (hn : 1 ≤ n) (hs : std_dev ≠ 0) :
    calculate_p_value mean_residual n std_dev
      = normCdf (mean_residual / (std_dev / Real.sqrt n)) := by
  simp only [calculate_p_value]
  rw [if_neg (by push_neg; exact ⟨by omega, hs⟩)]
  by_cases hm : 0 < mean_residual
  · rw [if_pos hm]; ring
  · rw [if_neg hm]

/-- Witness for C6 at mean 1, n = 4, std 1. -/
theorem c6_branches_collapse_witness :
    (1 ≤ 4 ∧ (1:ℝ) ≠ 0) ∧
      calculate_p_value 1 4 1 = normCdf (1 / (1 / Real.sqrt 4)) :=
  ⟨⟨by norm_num, by norm_num⟩, c6_branches_collapse 1 4 1 (by norm_num) (by norm_num)⟩

/-- C7: for every mean residual, sample size and standard deviation the
significance output lies in the closed unit interval, and the output is
exactly one half whenever n = 0 or the standard deviation is zero. -/
theorem c7_p_value_range (mean_residual : ℝ) (n : ℕ) (std_dev : ℝ) :
    (0 ≤ calculate_p_value mean_residual n std_dev ∧
      calculate_p_value mean_residual n std_dev ≤ 1) ∧
    ((n = 0 ∨ std_dev = 0) → calculate_p_value mean_residual n std_dev = 1/2) := by
  simp only [calculate_p_value]
  split_ifs with h hm
  · exact ⟨⟨by norm_num, by norm_num⟩, fun _ => rfl⟩
  · have h1 := normCdf_nonneg (mean_residual / (std_dev / Real.sqrt n))
    have h2 := normCdf_le_one (mean_residual / (std_dev / Real.sqrt n))
    exact ⟨⟨by linarith, by linarith⟩, fun hc => absurd hc h⟩
  · have h1 := normCdf_nonneg (mean_residual / (std_dev / Real.sqrt n))
    have h2 := normCdf_le_one (mean_residual / (std_dev / Real.sqrt n))
    exact ⟨⟨by linarith, by linarith⟩, fun hc => absurd hc h⟩

/-- Witness for C7 at n = 0. -/
theorem c7_p_value_range_witness : calculate_p_value 0 0 1 = 1/2 :=
  (c7_p_value_range 0 0 1).2 (Or.inl rfl)

/-- The mean of a nonempty list times its length is its sum. -/
theorem npMean_mul_length (rs : List ℚ) (h : ¬ rs = []) :
    npMean rs * rs.length = rs.sum := by
  have h0 : rs.length ≠ 0 := fun hl => h (List.length_eq_zero.mp hl)
  have h0q : (rs.length : ℚ) ≠ 0 := Nat.cast_ne_zero.mpr h0
  rw [npMean, div_mul_cancel₀ _ h0q]

/-- The stratum fold of calculate_combined_p_value accumulates exactly the
three stratum sums. -/
theorem combined_fold_eq (period : ℤ) (L : List (String × List ℚ)) (a : ℚ) (b : ℕ) (c : ℚ) :
    L.foldl
      (fun acc s =>
        if s.2 = [] then acc
        else
          (acc.1 + npMean s.2 * s.2.length,
           acc.2.1 + s.2.length,
           acc.2.2 + get_std_dev period (some s.1) ^ 2 * s.2.length))
      (a, b, c)
    = (a + groupSumRes L, b + groupN L, c + groupVarSum L period) := by
  induction L generalizing a b c with
  | nil => simp [groupSumRes, groupN, groupVarSum]
  | cons s rest ih =>
    simp only [List.foldl_cons]
    by_cases hs : s.2 = []
    · rw [if_pos hs, ih]
      simp [groupSumRes, groupN, groupVarSum, hs]
    · rw [if_neg hs, ih]
      have hm := npMean_mul_length s.2 hs
      simp only [groupSumRes, groupN, groupVarSum, List.map_cons, List.sum_cons, Prod.mk.injEq]
      exact ⟨by rw [hm]; ring, by omega, by ring⟩

/-- Empty strata contribute nothing to the total observation count. -/
theorem groupN_filter (L : List (String × List ℚ)) :
    groupN (L.filter fun s => ¬ s.2 = []) = groupN L := by
  induction L with
  | nil => rfl
  | cons s rest ih =>
    by_cases hs : s.2 = []
    · simp [groupN, List.filter_cons, hs] at ih ⊢; simpa [hs] using ih
    · simp [groupN, List.filter_cons, hs] at ih ⊢; simpa [hs] using ih

/-- Empty strata contribute nothing to the total residual sum. -/
theorem groupSumRes_filter (L : List (String × List ℚ)) :
    groupSumRes (L.filter fun s => ¬ s.2 = []) = groupSumRes L := by
  induction L with
  | nil => rfl
  | cons s rest ih =>
    by_cases hs : s.2 = []
    · simp [groupSumRes, List.filter_cons, hs] at ih ⊢; simpa [hs] using ih
    · simp [groupSumRes, List.filter_cons, hs] at ih ⊢; simpa [hs] using ih

/-- Empty strata contribute nothing to the variance sum. -/
theorem groupVarSum_filter (L : List (String × List ℚ)) (period : ℤ) :
    groupVarSum (L.filter fun s => ¬ s.2 = []) period = groupVarSum L period := by
  induction L with
  | nil => rfl
  | cons s rest ih =>
    by_cases hs : s.2 = []
    · simp [groupVarSum, List.filter_cons, hs] at ih ⊢; simpa [hs] using ih
    · simp [groupVarSum, List.filter_cons, hs] at ih ⊢; simpa [hs] using ih

/-- Over strata that are all nonempty, the size-weighted mean sum is the
residual sum. -/
theorem meanSum_eq_groupSumRes (L : List (String × List ℚ)) (h : ∀ s ∈ L, ¬ s.2 = []) :
    (L.map fun s => npMean s.2 * s.2.length).sum = groupSumRes L := by
  induction L with
  | nil => rfl
  | cons s rest ih =>
    simp only [List.map_cons, List.sum_cons, groupSumRes] at ih ⊢
    rw [npMean_mul_length s.2 (h s (List.mem_cons_self s rest)),
      ih fun x hx => h x (List.mem_cons_of_mem s hx)]

/-- The total observation count vanishes exactly when every stratum is
empty. -/
theorem groupN_eq_zero_iff (L : List (String × List ℚ)) :
    groupN L = 0 ↔ ∀ s ∈ L, s.2 = [] := by
  induction L with
  | nil => simp [groupN]
  | cons s rest ih =>
    simp only [groupN, List.map_cons, List.sum_cons, Nat.add_eq_zero,
      List.length_eq_zero, List.mem_cons] at ih ⊢
    constructor
    · rintro ⟨h1, h2⟩ x (rfl | hx)
      · exact h1
      · exact ih.mp h2 x hx
    · intro h
      exact ⟨h s (Or.inl rfl), ih.mpr fun x hx => h x (Or.inr hx)⟩

/-- C5: calculate_combined_p_value pools by the inverse-variance-weighted
formulas of the spec, strata with empty residual lists contributing to none
of the three sums, and returns exactly one half when every stratum is
empty. -/
theorem c5_combined_pooling (L : List (String × List ℚ)) (period : ℤ) :
    calculate_combined_p_value L period = specCombinedPValue L period ∧
    ((∀ s ∈ L, s.2 = []) → calculate_combined_p_value L period = 1/2) := by
  have hfold := combined_fold_eq period L 0 0 0
  simp only [zero_add] at hfold
  have hmain : calculate_combined_p_value L period = specCombinedPValue L period := by
    simp only [calculate_combined_p_value, specCombinedPValue, hfold]
    have hN : ((L.filter fun s => ¬ s.2 = []).map fun s => s.2.length).sum = groupN L := by
      simpa [groupN] using groupN_filter L
    have hMean : ((L.filter fun s => ¬ s.2 = []).map fun s => npMean s.2 * s.2.length).sum
        = groupSumRes L := by
      rw [meanSum_eq_groupSumRes _ fun s hs => by
        simpa using (List.mem_filter.mp hs).2, groupSumRes_filter]
    have hVar : ((L.filter fun s => ¬ s.2 = []).map fun s =>
        get_std_dev period (some s.1) ^ 2 * s.2.length).sum = groupVarSum L period := by
      simpa [groupVarSum] using groupVarSum_filter L period
    rw [hN, hMean, hVar]
  refine ⟨hmain, fun hall => ?_⟩
  have hN0 : groupN L = 0 := (groupN_eq_zero_iff L).mpr hall
  simp only [calculate_combined_p_value]
  rw [hfold]
  simp [hN0]

/-- Witness for C5 at a singleton list holding one empty stratum. -/
theorem c5_combined_pooling_witness :
    (∀ s ∈ [("rebound", ([] : List ℚ))], s.2 = []) ∧
      calculate_combined_p_value [("rebound", [])] 1 = 1/2 :=
  ⟨by simp, (c5_combined_pooling [("rebound", [])] 1).2 (by simp)⟩

/-- The observation count of flattened groups is the sum of group counts. -/
theorem groupN_flatten (L : List (List (String × List ℚ))) :
    groupN L.flatten = (L.map fun g => groupN g).sum := by
  simp only [groupN, List.map_flatten, List.sum_flatten, List.map_map]
  rfl

/-- The residual sum of flattened groups is the sum of group residual
sums. -/
theorem groupSumRes_flatten (L : List (List (String × List ℚ))) :
    groupSumRes L.flatten = (L.map fun g => groupSumRes g).sum := by
  simp only [groupSumRes, List.map_flatten, List.sum_flatten, List.map_map]
  rfl

/-- The variance sum of flattened groups is the sum of group variance
sums. -/
theorem groupVarSum_flatten (L : List (List (String × List ℚ))) (period : ℤ) :
    groupVarSum L.flatten period = (L.map fun g => groupVarSum g period).sum := by
  simp only [groupVarSum, List.map_flatten, List.sum_flatten, List.map_map]
  rfl

/-- Variance sums are nonnegative. -/
theorem groupVarSum_nonneg (g : List (String × List ℚ)) (period : ℤ) :
    0 ≤ groupVarSum g period := by
  apply List.sum_nonneg
  intro x hx
  obtain ⟨s, _, rfl⟩ := List.mem_map.mp hx
  positivity

/-- C8: pooling all nonempty strata of a partition directly yields the same
pooled (mean, n, std) summary as pooling the already-pooled group
summaries, and the combined p-value of the flattened strata is the
significance test at that pooled summary. -/
theorem c8_pooling_associative (groups : List (List (String × List ℚ))) (period : ℤ)
    (h : ∀ g ∈ groups, ¬ g = [] ∧ ∀ s ∈ g, ¬ s.2 = []) :
    poolSummaries (groups.map fun g => groupSummary g period)
        = groupSummary groups.flatten period ∧
      calculate_combined_p_value groups.flatten period
        = calculate_p_value (groupSummary groups.flatten period).1
            (groupSummary groups.flatten period).2.1
            (groupSummary groups.flatten period).2.2 := by
  have hNs : ∀ g ∈ groups, ((groupN g : ℚ) : ℝ) ≠ 0 := by
    intro g hg
    obtain ⟨hne, hstr⟩ := h g hg
    have : groupN g ≠ 0 := by
      intro h0
      obtain ⟨s, hs⟩ := List.exists_mem_of_ne_nil g hne
      exact hstr s hs ((groupN_eq_zero_iff g).mp h0 s hs)
    exact_mod_cast this
  have hNs2 : ∀ g ∈ groups, ((groupN g : ℕ) : ℝ) ≠ 0 := by
    intro g hg
    have := hNs g hg
    push_cast at this ⊢
    exact this
  have hn : ((groups.map fun g => groupSummary g period).map fun t => t.2.1).sum
      = groupN groups.flatten := by
    rw [List.map_map, groupN_flatten]
    rfl
  have hmean : ((groups.map fun g => groupSummary g period).map
        fun t => t.1 * (t.2.1 : ℝ)).sum
      = ((groupSumRes groups.flatten : ℚ) : ℝ) := by
    simp only [List.map_map, Function.comp_def]
    have hcongr : (groups.map fun g =>
          (groupSummary g period).1 * ((groupSummary g period).2.1 : ℝ))
        = groups.map fun g => ((groupSumRes g : ℚ) : ℝ) := by
      apply List.map_congr_left
      intro g hg
      show ((groupSumRes g : ℚ) : ℝ) / ((groupN g : ℕ) : ℝ) * ((groupN g : ℕ) : ℝ) = _
      rw [div_mul_cancel₀ _ (hNs2 g hg)]
    rw [hcongr, groupSumRes_flatten]
    rw [show (((groups.map fun g => groupSumRes g).sum : ℚ) : ℝ)
        = ((Rat.castHom ℝ) (groups.map fun g => groupSumRes g).sum) from rfl]
    rw [map_list_sum (Rat.castHom ℝ), List.map_map]
    rfl
  have hvar : ((groups.map fun g => groupSummary g period).map
        fun t => t.2.2 ^ 2 * (t.2.1 : ℝ)).sum
      = ((groupVarSum groups.flatten period : ℚ) : ℝ) := by
    simp only [List.map_map, Function.comp_def]
    have hcongr : (groups.map fun g =>
          (groupSummary g period).2.2 ^ 2 * ((groupSummary g period).2.1 : ℝ))
        = groups.map fun g => ((groupVarSum g period : ℚ) : ℝ) := by
      apply List.map_congr_left
      intro g hg
      show Real.sqrt (((groupVarSum g period : ℚ) : ℝ) / ((groupN g : ℕ) : ℝ)) ^ 2
          * ((groupN g : ℕ) : ℝ) = _
      rw [Real.sq_sqrt, div_mul_cancel₀ _ (hNs2 g hg)]
      apply div_nonneg
      · exact_mod_cast groupVarSum_nonneg g period
      · positivity
    rw [hcongr, groupVarSum_flatten]
    rw [show (((groups.map fun g => groupVarSum g period).sum : ℚ) : ℝ)
        = ((Rat.castHom ℝ) (groups.map fun g => groupVarSum g period).sum) from rfl]
    rw [map_list_sum (Rat.castHom ℝ), List.map_map]
    rfl
  constructor
  · rw [show groupSummary groups.flatten period
        = (((groupSumRes groups.flatten : ℚ) : ℝ) / ((groupN groups.flatten : ℕ) : ℝ),
           groupN groups.flatten,
           Real.sqrt (((groupVarSum groups.flatten period : ℚ) : ℝ)
             / ((groupN groups.flatten : ℕ) : ℝ))) from rfl]
    simp only [poolSummaries, Prod.mk.injEq]
    exact ⟨by rw [hmean, hn], by rw [hn], by rw [hvar, hn]⟩
  · have hfold := combined_fold_eq period groups.flatten 0 0 0
    simp only [zero_add] at hfold
    simp only [calculate_combined_p_value]
    rw [hfold]
    by_cases h0 : groupN groups.flatten = 0
    · rw [if_pos h0]
      have h2 : (groupSummary groups.flatten period).2.1 = 0 := h0
      simp [calculate_p_value, h2]
    · rw [if_neg h0]
      simp only [groupSummary]
      push_cast
      rfl

/-- Witness for C8 at two singleton groups with one observation each. -/
theorem c8_pooling_associative_witness :
    (∀ g ∈ [[("rebound", [(1:ℚ)])], [("turnover", [(2:ℚ)])]],
        ¬ g = [] ∧ ∀ s ∈ g, ¬ s.2 = []) ∧
      poolSummaries ([[("rebound", [(1:ℚ)])], [("turnover", [(2:ℚ)])]].map
          fun g => groupSummary g 1)
        = groupSummary ([[("rebound", [(1:ℚ)])], [("turnover", [(2:ℚ)])]]).flatten 1 :=
  ⟨by simp, (c8_pooling_associative [[("rebound", [(1:ℚ)])], [("turnover", [(2:ℚ)])]] 1
    (by simp)).1⟩

/-- C3 counterexample: on the empty possession sequence the analysis call
raises the no-Period-1 ValueError instead of returning a reduced-capability
result. -/
theorem c3_counterexample :
    build_tempo_figure constModel [] "g" none = Except.error (noP1Msg "g") := rfl

/-- C3 amended: a possession sequence without Period-1 rows, in particular
the empty sequence, makes the analysis call raise the no-Period-1
ValueError rather than return a reduced-capability result. -/
theorem c3_no_p1_raises (model : ExpModel) (tfs : List Poss) (game_id : String)
    (closing_total : Option ℚ)
    (h : tfs.filter (fun p => p.period_number = some 1) = []) :
    build_tempo_figure model tfs game_id closing_total
      = Except.error (noP1Msg game_id) := by
  simp only [build_tempo_figure]
  rw [h]
  simp

/-- Witness for the amended C3 at a Period-2-only game. -/
theorem c3_no_p1_raises_witness :
    ([⟨1, 10, some "rebound", some 2, none, none⟩] : List Poss).filter
        (fun p => p.period_number = some 1) = [] ∧
      build_tempo_figure constModel [⟨1, 10, some "rebound", some 2, none, none⟩] "g"
          (some 145) = Except.error (noP1Msg "g") :=
  ⟨by simp, c3_no_p1_raises constModel [⟨1, 10, some "rebound", some 2, none, none⟩]
    "g" (some 145) (by simp)⟩

/-- C4: with Period-1 data present and no market total the analysis call
succeeds, returning the figure with the raw and smoothed tempo layers and
no residual data, the residual pipeline being gated off. -/
theorem c4_no_market_total (model : ExpModel) (tfs : List Poss) (game_id : String)
    (h : ¬ tfs.filter (fun p => p.period_number = some 1) = []) :
    build_tempo_figure model tfs game_id none
      = Except.ok (figureOf (tfs.filter fun p => p.period_number = some 1), none) := by
  simp only [build_tempo_figure]
  rw [if_neg h]
  rfl

/-- Witness for C4 at the minimal one-possession game. -/
theorem c4_no_market_total_witness :
    ¬ gameP1.filter (fun p => p.period_number = some 1) = [] ∧
      build_tempo_figure constModel gameP1 "g" none
        = Except.ok (figureOf (gameP1.filter fun p => p.period_number = some 1), none) :=
  ⟨by simp [gameP1], c4_no_market_total constModel gameP1 "g" (by simp [gameP1])⟩

/-- C2 counterexample: in gameC2 under the score-differential-sensitive
model the code computes the Period-2 possession's residual with the
Period-1 differential 0, giving 10, while the claim prescribes that
possession's own period differential 20, which would give -10. -/
theorem c2_counterexample :
    scoreDiffP1 gameC2 = some 0 ∧
    specPeriodScoreDiff gameC2 2 = some 20 ∧
    (resAll diffModel 100 (scoreDiffP1 gameC2) gameC2)[1]? = some 10 ∧
    (gameC2[1]?).map (fun p => p.action_time
        - diffModel 100 (possTypeOf p) p.period_number (specPeriodScoreDiff gameC2 2))
      = some (-10) ∧
    ¬ ((10 : ℚ) = -10) := by
  refine ⟨?_, ?_, ?_, ?_, by norm_num⟩
  · norm_num [scoreDiffP1, gameC2, maxQ, pyAbs, List.filterMap_cons]
  · norm_num [specPeriodScoreDiff, gameC2, maxQ, pyAbs, List.filterMap_cons]
  · norm_num [scoreDiffP1, gameC2, maxQ, pyAbs, resAll, residualOf, diffModel,
      List.filterMap_cons]
  · norm_num [specPeriodScoreDiff, gameC2, maxQ, pyAbs, diffModel, List.filterMap_cons]

/-- C2 amended: the residual pipeline receives the Period-1 score
differential, and every residual (both periods) is the observed action_time
minus the model at that possession's type and period with that single
Period-1 differential. -/
theorem c2_residual_formula (model : ExpModel) (ct : ℚ) (g : List Poss) (i : ℕ)
    (h : ¬ g = []) :
    buildResidualData model (some ct) g
        = some (computeResidualData model ct g (scoreDiffP1 g)) ∧
      (resAll model ct (scoreDiffP1 g) g)[i]?
        = (g[i]?).map fun p =>
            p.action_time - model ct (possTypeOf p) p.period_number (scoreDiffP1 g) := by
  constructor
  · simp [buildResidualData, h]
  · rw [resAll, List.getElem?_map]
    rfl

/-- Witness for the amended C2 at the minimal game and index 0. -/
theorem c2_residual_formula_witness :
    ¬ gameP1 = [] ∧
      (resAll constModel 145 (scoreDiffP1 gameP1) gameP1)[0]?
        = (gameP1[0]?).map fun p =>
            p.action_time - constModel 145 (possTypeOf p) p.period_number (scoreDiffP1 gameP1) :=
  ⟨by simp [gameP1], (c2_residual_formula constModel 145 gameP1 0 (by simp [gameP1])).2⟩

/-- The period-1 bucket holds exactly the rows with period_number 1. -/
theorem periodBucket_p1_iff (p : Poss) :
    periodBucket p = some PB.p1 ↔ p.period_number = some 1 := by
  rcases hp : p.period_number with _ | k
  · simp [periodBucket, hp]
  · simp only [periodBucket, hp]
    split_ifs with h1 h2
    · simp [h1]
    · simp [h1]
    · simp [h1]

/-- The period-2 bucket holds exactly the rows with a known period of at
least 2. -/
theorem periodBucket_p2_iff (p : Poss) :
    periodBucket p = some PB.p2 ↔ ∃ k, p.period_number = some k ∧ 2 ≤ k := by
  rcases hp : p.period_number with _ | k
  · simp [periodBucket, hp]
  · simp only [periodBucket, hp]
    split_ifs with h1 h2
    · subst h1
      simp
    · simp [h2.2]
    · constructor
      · intro habs
        exact absurd habs (by simp)
      · rintro ⟨k2, hk, hk2⟩
        injection hk with hk
        exact absurd ⟨by omega, by omega⟩ h2

/-- A row lands in some period bucket exactly when its period_number is
known and at least 1. -/
theorem periodBucket_isSome_iff (p : Poss) :
    (periodBucket p).isSome ↔ ∃ k, p.period_number = some k ∧ 1 ≤ k := by
  rcases hp : p.period_number with _ | k
  · simp [periodBucket, hp]
  · simp only [periodBucket, hp]
    split_ifs with h1 h2
    · subst h1
      simp
    · simp only [Option.isSome_some, true_iff]
      exact ⟨k, rfl, by omega⟩
    · simp only [Option.isSome_none, Bool.false_eq_true, false_iff]
      rintro ⟨k2, hk, hk2⟩
      injection hk with hk
      exact absurd ⟨by omega, by omega⟩ h2

/-- The two period buckets together count exactly the rows landing in a
bucket. -/
theorem countP_bucket_split (g : List Poss) :
    (g.countP fun p => periodBucket p = some PB.p1)
      + (g.countP fun p => periodBucket p = some PB.p2)
    = g.countP fun p => (periodBucket p).isSome := by
  induction g with
  | nil => rfl
  | cons p rest ih =>
    rcases hb : periodBucket p with _ | b
    · simp only [List.countP_cons, hb]
      simp [ih]
    · cases b
      · simp only [List.countP_cons, hb]
        simp only [Option.isSome_some]
        simp
        omega
      · simp only [List.countP_cons, hb]
        simp only [Option.isSome_some]
        simp
        omega

/-- C10: every possession contributes its residual to the overall
aggregates, the period-1 bucket holds exactly the rows with period 1, the
period-2 bucket exactly the rows with a known period of at least 2
(overtime included), rows with a missing or sub-1 period land in neither
bucket, so the overall count dominates the sum of the period counts, with
equality exactly when every row has a known period of at least 1. -/
theorem c10_period_bucketing (model : ExpModel) (ct : ℚ) (sd : Option ℚ) (g : List Poss) :
    (computeResidualData model ct g sd).total_poss = g.length ∧
    resP model ct sd g PB.p1
        = (g.filter fun p => p.period_number = some 1).map (residualOf model ct sd) ∧
    resP model ct sd g PB.p2
        = (g.filter fun p => match p.period_number with
            | some k => decide (2 ≤ k)
            | none => false).map (residualOf model ct sd) ∧
    (computeResidualData model ct g sd).total_poss_p1
          + (computeResidualData model ct g sd).total_poss_p2
        ≤ (computeResidualData model ct g sd).total_poss ∧
    ((computeResidualData model ct g sd).total_poss_p1
          + (computeResidualData model ct g sd).total_poss_p2
        = (computeResidualData model ct g sd).total_poss
      ↔ ∀ p ∈ g, ∃ k, p.period_number = some k ∧ 1 ≤ k) := by
  have htot : (computeResidualData model ct g sd).total_poss = g.length := by
    show (resAll model ct sd g).length = g.length
    simp [resAll]
  have hp1 : (computeResidualData model ct g sd).total_poss_p1
      = g.countP fun p => periodBucket p = some PB.p1 := by
    show (resP model ct sd g PB.p1).length = _
    simp [resP, List.countP_eq_length_filter]
  have hp2 : (computeResidualData model ct g sd).total_poss_p2
      = g.countP fun p => periodBucket p = some PB.p2 := by
    show (resP model ct sd g PB.p2).length = _
    simp [resP, List.countP_eq_length_filter]
  have hsplit := countP_bucket_split g
  have hone : (g.countP fun p => (periodBucket p).isSome) ≤ g.length := by
    rw [List.countP_eq_length_filter]
    exact List.length_filter_le _ g
  have hf2 : (g.filter fun p => periodBucket p = some PB.p2)
      = g.filter fun p => match p.period_number with
          | some k => decide (2 ≤ k)
          | none => false := by
    apply List.filter_congr
    intro x _
    rcases hp : x.period_number with _ | k
    · simp [periodBucket, hp]
    · by_cases h2 : 2 ≤ k
      · have hb : periodBucket x = some PB.p2 := (periodBucket_p2_iff x).mpr ⟨k, hp, h2⟩
        simp [hb, hp, h2]
      · have hb : ¬ periodBucket x = some PB.p2 := by
          intro hb
          obtain ⟨k2, hk2, h22⟩ := (periodBucket_p2_iff x).mp hb
          rw [hp] at hk2
          injection hk2 with e
          omega
        simp [hb, hp, h2]
  refine ⟨htot, ?_, ?_, ?_, ?_⟩
  · unfold resP
    rw [List.filter_congr fun x _ => decide_eq_decide.mpr (periodBucket_p1_iff x)]
  · unfold resP
    rw [hf2]
  · rw [hp1, hp2, htot, hsplit]
    exact hone
  · rw [hp1, hp2, htot, hsplit, List.countP_eq_length]
    constructor
    · intro hall p hp
      exact (periodBucket_isSome_iff p).mp (hall p hp)
    · intro hall p hp
      exact (periodBucket_isSome_iff p).mpr (hall p hp)

/-- The two period buckets are distinct. -/
theorem pb_p1_ne_p2 : ¬ PB.p1 = PB.p2 := fun h => PB.noConfusion h

/-- The two period buckets are distinct, reversed. -/
theorem pb_p2_ne_p1 : ¬ PB.p2 = PB.p1 := fun h => PB.noConfusion h

/-- Distinctness of the possession-type keys appearing in the scenario. -/
theorem str_ne_1 : ¬ "turnover" = "rebound" := by decide

/-- Distinctness of the possession-type keys, reversed. -/
theorem str_ne_2 : ¬ "rebound" = "turnover" := by decide

/-- Rebound is not the made-shot key. -/
theorem str_ne_3 : ¬ "rebound" = "oppo_made_shot" := by decide

/-- Turnover is not the made-shot key. -/
theorem str_ne_4 : ¬ "turnover" = "oppo_made_shot" := by decide

/-- Rebound is not the made-free-throw key. -/
theorem str_ne_5 : ¬ "rebound" = "oppo_made_ft" := by decide

/-- Turnover is not the made-free-throw key. -/
theorem str_ne_6 : ¬ "turnover" = "oppo_made_ft" := by decide

/-- Rebound is not the catch-all key. -/
theorem str_ne_7 : ¬ "rebound" = "other" := by decide

/-- Turnover is not the catch-all key. -/
theorem str_ne_8 : ¬ "turnover" = "other" := by decide

/-- Python lower is the identity on the rebound key. -/
theorem pyLower_rebound : pyLower "rebound" = "rebound" := rfl

/-- Python lower is the identity on the turnover key. -/
theorem pyLower_turnover : pyLower "turnover" = "turnover" := rfl

/-- Table standard deviation of period-2 rebounds. -/
theorem std_reb_p2 : get_std_dev 2 (some "rebound") = 17/2 := rfl

/-- Table standard deviation of period-2 turnovers. -/
theorem std_to_p2 : get_std_dev 2 (some "turnover") = 17/2 := rfl

/-- The significance test returns one half whenever the mean residual is
zero, for every sample size and standard deviation. -/
theorem calc_p_zero_mean (n : ℕ) (s : ℝ) : calculate_p_value 0 n s = 1/2 := by
  simp only [calculate_p_value]
  split_ifs with h hm
  · rfl
  · exact absurd hm (by norm_num)
  · rw [zero_div, normCdf_zero]

/-- Period-2 residuals of the scenario game are plus and minus four. -/
theorem scenario_resP_p2 :
    resP constModel 145 (scoreDiffP1 scenarioGame) scenarioGame PB.p2 = [4, -4] := by
  norm_num [resP, scenarioGame, periodBucket, residualOf, constModel,
    List.filter_cons, List.filter_nil, pb_p1_ne_p2, pb_p2_ne_p1,
    str_ne_1, str_ne_2, str_ne_3, str_ne_4, str_ne_5, str_ne_6, str_ne_7, str_ne_8]

/-- Period-2 rebound stratum of the scenario game. -/
theorem scenario_byT2_reb :
    resByType constModel 145 (scoreDiffP1 scenarioGame) scenarioGame PB.p2 "rebound"
      = [4] := by
  norm_num [resByType, scenarioGame, periodBucket, typeBucket, possTypeOf, bucketKeys,
    residualOf, constModel, pyLower_rebound, pyLower_turnover,
    List.filter_cons, List.filter_nil, pb_p1_ne_p2, pb_p2_ne_p1,
    str_ne_1, str_ne_2, str_ne_3, str_ne_4, str_ne_5, str_ne_6, str_ne_7, str_ne_8]

/-- Period-2 turnover stratum of the scenario game. -/
theorem scenario_byT2_to :
    resByType constModel 145 (scoreDiffP1 scenarioGame) scenarioGame PB.p2 "turnover"
      = [-4] := by
  norm_num [resByType, scenarioGame, periodBucket, typeBucket, possTypeOf, bucketKeys,
    residualOf, constModel, pyLower_rebound, pyLower_turnover,
    List.filter_cons, List.filter_nil, pb_p1_ne_p2, pb_p2_ne_p1,
    str_ne_1, str_ne_2, str_ne_3, str_ne_4, str_ne_5, str_ne_6, str_ne_7, str_ne_8]

/-- Period-2 made-shot stratum of the scenario game is empty. -/
theorem scenario_byT2_ms :
    resByType constModel 145 (scoreDiffP1 scenarioGame) scenarioGame PB.p2 "oppo_made_shot"
      = [] := by
  norm_num [resByType, scenarioGame, periodBucket, typeBucket, possTypeOf, bucketKeys,
    residualOf, constModel, pyLower_rebound, pyLower_turnover,
    List.filter_cons, List.filter_nil, pb_p1_ne_p2, pb_p2_ne_p1,
    str_ne_1, str_ne_2, str_ne_3, str_ne_4, str_ne_5, str_ne_6, str_ne_7, str_ne_8]

/-- Period-2 made-free-throw stratum of the scenario game is empty. -/
theorem scenario_byT2_ft :
    resByType constModel 145 (scoreDiffP1 scenarioGame) scenarioGame PB.p2 "oppo_made_ft"
      = [] := by
  norm_num [resByType, scenarioGame, periodBucket, typeBucket, possTypeOf, bucketKeys,
    residualOf, constModel, pyLower_rebound, pyLower_turnover,
    List.filter_cons, List.filter_nil, pb_p1_ne_p2, pb_p2_ne_p1,
    str_ne_1, str_ne_2, str_ne_3, str_ne_4, str_ne_5, str_ne_6, str_ne_7, str_ne_8]

/-- Period-2 catch-all stratum of the scenario game is empty. -/
theorem scenario_byT2_other :
    resByType constModel 145 (scoreDiffP1 scenarioGame) scenarioGame PB.p2 "other"
      = [] := by
  norm_num [resByType, scenarioGame, periodBucket, typeBucket, possTypeOf, bucketKeys,
    residualOf, constModel, pyLower_rebound, pyLower_turnover,
    List.filter_cons, List.filter_nil, pb_p1_ne_p2, pb_p2_ne_p1,
    str_ne_1, str_ne_2, str_ne_3, str_ne_4, str_ne_5, str_ne_6, str_ne_7, str_ne_8]

/-- Combined period-2 p-value of the scenario strata is one half. -/
theorem scenario_combined :
    calculate_combined_p_value
      [("rebound", [4]), ("turnover", [-4]),
       ("oppo_made_shot", []), ("oppo_made_ft", []), ("other", [])] 2 = 1/2 := by
  simp only [calculate_combined_p_value, List.foldl_cons, List.foldl_nil]
  norm_num [npMean, std_reb_p2, std_to_p2]
  exact calc_p_zero_mean 2 _

/-- The pipeline period-2 p-value of the scenario is exactly one half. -/
theorem scenarioRD_p_value_p2 : scenarioRD.p_value_p2 = 1/2 := by
  have hby : (bucketKeys.map fun t =>
        (t, resByType constModel 145 (scoreDiffP1 scenarioGame) scenarioGame PB.p2 t))
      = [("rebound", [4]), ("turnover", [-4]),
         ("oppo_made_shot", []), ("oppo_made_ft", []), ("other", [])] := by
    simp only [bucketKeys, List.map_cons, List.map_nil, scenario_byT2_reb, scenario_byT2_to,
      scenario_byT2_ms, scenario_byT2_ft, scenario_byT2_other]
  simp only [scenarioRD, computeResidualData, scenario_resP_p2, hby, scenario_combined]
  norm_num

/-- The period-2 median residual of the scenario is zero. -/
theorem scenarioRD_median_p2 : scenarioRD.median_residual_p2 = 0 := by
  simp only [scenarioRD, computeResidualData, scenario_resP_p2]
  norm_num [npMedian, sortQ, insertSorted, List.getD]

/-- C1 counterexample: on the spec's concrete tie scenario the period-2
median residual is zero, yet the game/UI classification of the pipeline
result is fast, never slow. -/
theorem c1_counterexample :
    buildResidualData constModel (some 145) scenarioGame = some scenarioRD ∧
    scenarioRD.median_residual_p2 = 0 ∧
    (calculate_correctness "slow" scenarioRD).2 = "fast" ∧
    ¬ ("fast" = "slow") := by
  refine ⟨?_, scenarioRD_median_p2, ?_, by decide⟩
  · simp [buildResidualData, scenarioGame, scenarioRD]
  · simp only [calculate_correctness, scenarioRD_p_value_p2]
    norm_num

/-- C1 amended: the classification consumed by the game/UI scoring is
determined by the period-2 combined p-value of the pipeline result, slow
exactly when it exceeds one half and fast otherwise; on the spec's tie
scenario the p-value is one half and the classification is
deterministically fast. -/
theorem c1_classification_by_p_value (user_prediction : String) (model : ExpModel)
    (ct : ℚ) (g : List Poss) (sd : Option ℚ) :
    ((calculate_correctness user_prediction (computeResidualData model ct g sd)).2 = "slow"
        ↔ 1/2 < (computeResidualData model ct g sd).p_value_p2) ∧
      scenarioRD.p_value_p2 = 1/2 ∧
      (calculate_correctness "slow" scenarioRD).2 = "fast" := by
  refine ⟨?_, scenarioRD_p_value_p2, ?_⟩
  · simp only [calculate_correctness]
    by_cases h : (1:ℝ)/2 < (computeResidualData model ct g sd).p_value_p2
    · simp [h]
    · simp [h, show ¬ "fast" = "slow" from by decide]
  · simp only [calculate_correctness, scenarioRD_p_value_p2]
    norm_num

/-- Lookup of a key that is absent from the key list of a by-type
association list. -/
theorem lookup_byType_not_mem {α : Type} (keys : List String) (E : String → List ℚ)
    (f : String → α) (t : String) (ht : ¬ t ∈ keys) :
    List.lookup t (keys.filterMap fun k => if E k = [] then none else some (k, f k))
      = none := by
  induction keys with
  | nil => rfl
  | cons k ks ih =>
    have hk : ¬ t = k := fun h => ht (h ▸ List.mem_cons_self k ks)
    have hks : ¬ t ∈ ks := fun h => ht (List.mem_cons_of_mem k h)
    have hbeq : (t == k) = false := by
      cases h : t == k
      · rfl
      · exact absurd (beq_iff_eq.mp h) hk
    by_cases hq : E k = []
    · rw [List.filterMap_cons, if_pos hq]
      exact ih hks
    · rw [List.filterMap_cons, if_neg hq, List.lookup_cons, hbeq]
      exact ih hks

/-- Lookup of a key of a by-type association list built over nodup keys:
the entry is present, holding its value, exactly when its stratum is
nonempty. -/
theorem lookup_byType {α : Type} (keys : List String) (E : String → List ℚ)
    (f : String → α) (t : String) (ht : t ∈ keys) (hnd : keys.Nodup) :
    List.lookup t (keys.filterMap fun k => if E k = [] then none else some (k, f k))
      = if E t = [] then none else some (f t) := by
  induction keys with
  | nil => exact absurd ht (List.not_mem_nil t)
  | cons k ks ih =>
    obtain ⟨hknm, hnd2⟩ := List.nodup_cons.mp hnd
    rcases List.mem_cons.mp ht with rfl | hts
    · by_cases hq : E t = []
      · rw [List.filterMap_cons, if_pos hq, if_pos hq]
        exact lookup_byType_not_mem ks E f t hknm
      · rw [List.filterMap_cons, if_neg hq, if_neg hq, List.lookup_cons,
          beq_iff_eq.mpr rfl]
    · have hk : ¬ t = k := fun h => hknm (h ▸ hts)
      have hbeq : (t == k) = false := by
        cases h : t == k
        · rfl
        · exact absurd (beq_iff_eq.mp h) hk
      by_cases hq : E k = []
      · rw [List.filterMap_cons, if_pos hq]
        exact ih hts hnd2
      · rw [List.filterMap_cons, if_neg hq, List.lookup_cons, hbeq]
        exact ih hts hnd2

/-- Filtering by a predicate that excludes the removed rows is unchanged by
the removal. -/
theorem filter_after_remove (g : List Poss) (A B : Poss → Prop)
    [DecidablePred A] [DecidablePred B] (h : ∀ p, A p → ¬ B p) :
    (g.filter fun p => ¬ B p).filter (fun p => A p) = g.filter fun p => A p := by
  rw [List.filter_filter]
  apply List.filter_congr
  intro x _
  by_cases hA : A x
  · simp [hA, h x hA]
  · simp [hA]

/-- Filtering for the removed rows after the removal yields nothing. -/
theorem filter_remove_self (g : List Poss) (B : Poss → Prop) [DecidablePred B] :
    (g.filter fun p => ¬ B p).filter (fun p => B p) = [] := by
  rw [List.filter_filter]
  apply List.filter_eq_nil_iff.mpr
  intro a _
  by_cases hB : B a
  · simp [hB]
  · simp [hB]

/-- Removing the period-2 rows of one type leaves every period-1 stratum
unchanged. -/
theorem resByType_p1_after_remove (model : ExpModel) (ct : ℚ) (sd : Option ℚ)
    (g : List Poss) (t t2 : String) :
    resByType model ct sd
        (g.filter fun p => ¬ (periodBucket p = some PB.p2 ∧ typeBucket p = t)) PB.p1 t2
      = resByType model ct sd g PB.p1 t2 := by
  unfold resByType
  rw [filter_after_remove]
  rintro p hp ⟨h2, _⟩
  rw [hp.1] at h2
  exact pb_p1_ne_p2 (Option.some_inj.mp h2)

/-- Removing the period-2 rows of one type leaves the period-1 residual
list unchanged. -/
theorem resP_p1_after_remove (model : ExpModel) (ct : ℚ) (sd : Option ℚ)
    (g : List Poss) (t : String) :
    resP model ct sd
        (g.filter fun p => ¬ (periodBucket p = some PB.p2 ∧ typeBucket p = t)) PB.p1
      = resP model ct sd g PB.p1 := by
  unfold resP
  rw [filter_after_remove]
  rintro p hp ⟨h2, _⟩
  rw [hp] at h2
  exact pb_p1_ne_p2 (Option.some_inj.mp h2)

/-- Removing the period-2 rows of one type leaves the Period-1 score
differential unchanged. -/
theorem scoreDiffP1_after_remove (g : List Poss) (t : String) :
    scoreDiffP1 (g.filter fun p => ¬ (periodBucket p = some PB.p2 ∧ typeBucket p = t))
      = scoreDiffP1 g := by
  unfold scoreDiffP1
  rw [filter_after_remove]
  rintro p hp ⟨h2, _⟩
  rw [(periodBucket_p1_iff p).mpr hp] at h2
  exact pb_p1_ne_p2 (Option.some_inj.mp h2)

/-- After removing the period-2 rows of one type, that period-2 stratum is
empty. -/
theorem resByType_p2_after_remove (model : ExpModel) (ct : ℚ) (sd : Option ℚ)
    (g : List Poss) (t : String) :
    resByType model ct sd
        (g.filter fun p => ¬ (periodBucket p = some PB.p2 ∧ typeBucket p = t)) PB.p2 t
      = [] := by
  unfold resByType
  rw [filter_remove_self]
  rfl

/-- The positive-share percentage of a nonempty stratum equals 100 times
the positive count over the size. -/
theorem pctPos_formula (rs : List ℚ) (hne : ¬ rs = []) :
    pctPos rs = 100 * ((rs.countP fun r => 0 < r : ℕ) : ℚ) / rs.length := by
  have hlen : rs.length ≠ 0 := fun h => hne (List.length_eq_zero.mp h)
  rw [pctPos, if_neg hlen]
  ring

/-- C9 amended: a (period-2, type) stratum has count and pct_positive
entries in the period-2 type aggregates exactly when it holds at least one
residual, with count the stratum size and pct_positive equal to 100 times
the positive count over the size; removing the only period-2 possession of
a type removes that entry while leaving every period-1 aggregate unchanged
(removal from period 1 can instead change period-2 aggregates through the
shared period-1 score differential). -/
theorem c9_strata_aggregation (model : ExpModel) (ct : ℚ) (g : List Poss) (t : String)
    (ht : t ∈ bucketKeys)
    (h1 : (g.filter fun p => periodBucket p = some PB.p2 ∧ typeBucket p = t).length = 1)
    (h2 : ¬ removeP2Type g t = [])
    (h3 : ¬ g = []) :
    (∀ t2 ∈ bucketKeys,
      List.lookup t2 (computeResidualData model ct g (scoreDiffP1 g)).count_by_type_p2
        = if resByType model ct (scoreDiffP1 g) g PB.p2 t2 = [] then none
          else some (resByType model ct (scoreDiffP1 g) g PB.p2 t2).length) ∧
    (∀ t2 ∈ bucketKeys,
      List.lookup t2 (computeResidualData model ct g (scoreDiffP1 g)).pct_above_by_type_p2
        = if resByType model ct (scoreDiffP1 g) g PB.p2 t2 = [] then none
          else some (100 * (((resByType model ct (scoreDiffP1 g) g PB.p2 t2).countP
              fun r => 0 < r : ℕ) : ℚ)
            / (resByType model ct (scoreDiffP1 g) g PB.p2 t2).length)) ∧
    buildResidualData model (some ct) g
      = some (computeResidualData model ct g (scoreDiffP1 g)) ∧
    buildResidualData model (some ct) (removeP2Type g t)
      = some (computeResidualData model ct (removeP2Type g t) (scoreDiffP1 g)) ∧
    List.lookup t (computeResidualData model ct g (scoreDiffP1 g)).count_by_type_p2
      = some 1 ∧
    List.lookup t (computeResidualData model ct (removeP2Type g t)
        (scoreDiffP1 g)).count_by_type_p2 = none ∧
    (computeResidualData model ct (removeP2Type g t) (scoreDiffP1 g)).avg_residual_p1
      = (computeResidualData model ct g (scoreDiffP1 g)).avg_residual_p1 ∧
    (computeResidualData model ct (removeP2Type g t) (scoreDiffP1 g)).median_residual_p1
      = (computeResidualData model ct g (scoreDiffP1 g)).median_residual_p1 ∧
    (computeResidualData model ct (removeP2Type g t) (scoreDiffP1 g)).pct_above_p1
      = (computeResidualData model ct g (scoreDiffP1 g)).pct_above_p1 ∧
    (computeResidualData model ct (removeP2Type g t) (scoreDiffP1 g)).total_poss_p1
      = (computeResidualData model ct g (scoreDiffP1 g)).total_poss_p1 ∧
    (computeResidualData model ct (removeP2Type g t) (scoreDiffP1 g)).p_value_p1
      = (computeResidualData model ct g (scoreDiffP1 g)).p_value_p1 ∧
    (computeResidualData model ct (removeP2Type g t) (scoreDiffP1 g)).count_by_type_p1
      = (computeResidualData model ct g (scoreDiffP1 g)).count_by_type_p1 ∧
    (computeResidualData model ct (removeP2Type g t) (scoreDiffP1 g)).avg_by_type_p1
      = (computeResidualData model ct g (scoreDiffP1 g)).avg_by_type_p1 ∧
    (computeResidualData model ct (removeP2Type g t) (scoreDiffP1 g)).median_by_type_p1
      = (computeResidualData model ct g (scoreDiffP1 g)).median_by_type_p1 ∧
    (computeResidualData model ct (removeP2Type g t) (scoreDiffP1 g)).pct_above_by_type_p1
      = (computeResidualData model ct g (scoreDiffP1 g)).pct_above_by_type_p1 ∧
    (computeResidualData model ct (removeP2Type g t) (scoreDiffP1 g)).p_value_by_type_p1
      = (computeResidualData model ct g (scoreDiffP1 g)).p_value_by_type_p1 := by
  have hnodup : bucketKeys.Nodup := by decide
  have hproj1 : (computeResidualData model ct g (scoreDiffP1 g)).count_by_type_p2
      = bucketKeys.filterMap fun k =>
          if resByType model ct (scoreDiffP1 g) g PB.p2 k = [] then none
          else some (k, (resByType model ct (scoreDiffP1 g) g PB.p2 k).length) := rfl
  have hproj2 : (computeResidualData model ct g (scoreDiffP1 g)).pct_above_by_type_p2
      = bucketKeys.filterMap fun k =>
          if resByType model ct (scoreDiffP1 g) g PB.p2 k = [] then none
          else some (k, pctPos (resByType model ct (scoreDiffP1 g) g PB.p2 k)) := rfl
  have hprojR : (computeResidualData model ct (removeP2Type g t)
        (scoreDiffP1 g)).count_by_type_p2
      = bucketKeys.filterMap fun k =>
          if resByType model ct (scoreDiffP1 g) (removeP2Type g t) PB.p2 k = [] then none
          else some (k,
            (resByType model ct (scoreDiffP1 g) (removeP2Type g t) PB.p2 k).length) := rfl
  have hlenF : (resByType model ct (scoreDiffP1 g) g PB.p2 t).length = 1 := by
    rw [resByType, List.length_map]
    exact h1
  have hneF : ¬ resByType model ct (scoreDiffP1 g) g PB.p2 t = [] := by
    intro he
    rw [he] at hlenF
    exact absurd hlenF (by norm_num)
  refine ⟨?_, ?_, ?_, ?_, ?_, ?_, ?_, ?_, ?_, ?_, ?_, ?_, ?_, ?_, ?_, ?_⟩
  · intro t2 ht2
    rw [hproj1]
    exact lookup_byType bucketKeys _ _ t2 ht2 hnodup
  · intro t2 ht2
    rw [hproj2, lookup_byType bucketKeys _ _ t2 ht2 hnodup]
    by_cases hne : resByType model ct (scoreDiffP1 g) g PB.p2 t2 = []
    · rw [if_pos hne, if_pos hne]
    · rw [if_neg hne, if_neg hne, pctPos_formula _ hne]
  · simp [buildResidualData, h3]
  · have hstep : buildResidualData model (some ct) (removeP2Type g t)
        = some (computeResidualData model ct (removeP2Type g t)
            (scoreDiffP1 (removeP2Type g t))) := by
      simp [buildResidualData, h2]
    rw [hstep, removeP2Type, scoreDiffP1_after_remove]
  · rw [hproj1, lookup_byType bucketKeys _ _ t ht hnodup, if_neg hneF, hlenF]
  · rw [hprojR, lookup_byType bucketKeys _ _ t ht hnodup]
    rw [if_pos]
    rw [removeP2Type]
    exact resByType_p2_after_remove model ct (scoreDiffP1 g) g t
  · simp only [computeResidualData, removeP2Type, resP_p1_after_remove]
  · simp only [computeResidualData, removeP2Type, resP_p1_after_remove]
  · simp only [computeResidualData, removeP2Type, resP_p1_after_remove]
  · simp only [computeResidualData, removeP2Type, resP_p1_after_remove]
  · simp only [computeResidualData, removeP2Type, resP_p1_after_remove,
      resByType_p1_after_remove]
  · simp only [computeResidualData, removeP2Type, resByType_p1_after_remove]
  · simp only [computeResidualData, removeP2Type, resByType_p1_after_remove]
  · simp only [computeResidualData, removeP2Type, resByType_p1_after_remove]
  · simp only [computeResidualData, removeP2Type, resByType_p1_after_remove]
  · simp only [computeResidualData, removeP2Type, resByType_p1_after_remove]

/-- Witness for the amended C9 at gameC9 with the rebound type, whose only
period-2 possession is the third row. -/
theorem c9_strata_aggregation_witness :
    ("rebound" ∈ bucketKeys ∧
      (gameC9.filter fun p => periodBucket p = some PB.p2 ∧
        typeBucket p = "rebound").length = 1 ∧
      ¬ removeP2Type gameC9 "rebound" = [] ∧ ¬ gameC9 = []) ∧
    List.lookup "rebound" (computeResidualData diffModel 100 gameC9
        (scoreDiffP1 gameC9)).count_by_type_p2 = some 1 :=
  ⟨⟨by decide, by decide, by decide, by decide⟩,
    (c9_strata_aggregation diffModel 100 gameC9 "rebound" (by decide) (by decide)
      (by decide) (by decide)).2.2.2.2.1⟩

/-- C9 counterexample: removing the only period-1 turnover of gameC9, which
carries the period-1 maximum score, changes the period-2 average residual
from -10 to 10 under a score-differential-sensitive model, so the sibling
period's aggregates do not stay unchanged. -/
theorem c9_counterexample :
    gameC9R = gameC9.filter
        (fun p => ¬ (periodBucket p = some PB.p1 ∧ typeBucket p = "turnover")) ∧
    (gameC9.filter fun p => periodBucket p = some PB.p1 ∧
        typeBucket p = "turnover").length = 1 ∧
    (buildResidualData diffModel (some 100) gameC9).map (fun rd => rd.avg_residual_p2)
      = some (-10) ∧
    (buildResidualData diffModel (some 100) gameC9R).map (fun rd => rd.avg_residual_p2)
      = some 10 ∧
    ¬ ((-10 : ℚ) = 10) := by
  refine ⟨by decide, by decide, ?_, ?_, by norm_num⟩
  · have hsd : scoreDiffP1 gameC9 = some 20 := by
      norm_num [scoreDiffP1, gameC9, maxQ, pyAbs, List.filterMap_cons, List.filter_cons,
        List.filter_nil]
      intro h
      exact absurd h (by simp)
    have hrp : resP diffModel 100 (some 20) gameC9 PB.p2 = [-10] := by
      norm_num [resP, gameC9, periodBucket, residualOf, diffModel, List.filter_cons,
        List.filter_nil, pb_p1_ne_p2, pb_p2_ne_p1]
    have hbuild : buildResidualData diffModel (some 100) gameC9
        = some (computeResidualData diffModel 100 gameC9 (scoreDiffP1 gameC9)) := by
      simp [buildResidualData, gameC9]
    rw [hbuild, hsd]
    simp only [Option.map_some', computeResidualData, hrp]
    norm_num [npMean]
  · have hsd : scoreDiffP1 gameC9R = some 0 := by
      norm_num [scoreDiffP1, gameC9R, maxQ, pyAbs, List.filterMap_cons, List.filter_cons,
        List.filter_nil]
    have hrp : resP diffModel 100 (some 0) gameC9R PB.p2 = [10] := by
      norm_num [resP, gameC9R, periodBucket, residualOf, diffModel, List.filter_cons,
        List.filter_nil, pb_p1_ne_p2, pb_p2_ne_p1]
    have hbuild : buildResidualData diffModel (some 100) gameC9R
        = some (computeResidualData diffModel 100 gameC9R (scoreDiffP1 gameC9R)) := by
      simp [buildResidualData, gameC9R]
    rw [hbuild, hsd]
    simp only [Option.map_some', computeResidualData, hrp]
    norm_num [npMean]

end Halftime
